import Mathlib

/-!
Shallow embedding of the local fallback analysis engine of
`src/app.py` (class `MedicalAIAnalyzer`): the lab-value extractor
`extract_lab_values` (lines 653-688), the static reference-range table
built in the knowledge-base method (lines 155-183), the classification
and report composition of `_analyze_lab_results` (lines 458-490), and
the keyword-routed chat fallback `_intelligent_fallback_response`
(lines 305-357) together with the templated helpers it dispatches to.

Modelling conventions: Python strings are Lean `String`s (or their
`List Char` data); Python floats are `Rat` (every numeric literal in
play is an exact short decimal, on which Python float parsing,
comparison and printing agree with exact rational arithmetic); Python
dicts are insertion-ordered association lists; the `ValueError` of
`float(...)` is the `none` of an `Option`-valued parser, so every
function here is total by construction, as the source's exception
handling makes the original.
-/

/-- Lowercased character stream of a string: models Python `str.lower()`
on the texts involved, and the effect of `re.IGNORECASE` when applied to
both the text and the pattern literals. -/
def lowerData (s : String) : List Char := s.data.map Char.toLower

/-- Does `pat` occur as a prefix of the second list? -/
def prefixAt : List Char → List Char → Bool
  | [], _ => true
  | _ :: _, [] => false
  | p :: ps, c :: cs => p == c && prefixAt ps cs

/-- Substring test on character lists: models Python `pat in s`. -/
def containsSub (pat : List Char) : List Char → Bool
  | [] => prefixAt pat []
  | c :: cs => prefixAt pat (c :: cs) || containsSub pat cs

/-- Python truthiness of `value and value.strip()` for a string given as
a character list: nonempty, and nonempty after stripping whitespace
(i.e. containing some non-whitespace character). -/
def pyTruthy (v : List Char) : Bool :=
  !v.isEmpty && v.any (fun c => !c.isWhitespace)

def digitVal (c : Char) : Nat := c.toNat - 48

def natOfDigits (l : List Char) : Nat :=
  l.foldl (fun a c => a * 10 + digitVal c) 0

/-- Split a character list at every dot. -/
def splitDots : List Char → List (List Char)
  | [] => [[]]
  | c :: cs =>
    if c = '.' then [] :: splitDots cs
    else
      match splitDots cs with
      | [] => [[c]]
      | h :: t => (c :: h) :: t

/-- Python `float(value)` on a candidate drawn from the regex class
`[\d.]` (digits and dots only): at most one dot and at least one digit,
read as an exact decimal; `none` models the `ValueError` branch that the
source catches and skips. -/
def pyFloat (v : List Char) : Option Rat :=
  match splitDots v with
  | [p] => if p ≠ [] ∧ p.all Char.isDigit then some (natOfDigits p) else none
  | [p, q] =>
    if (p ≠ [] ∨ q ≠ []) ∧ p.all Char.isDigit ∧ q.all Char.isDigit then
      some ((natOfDigits p : Rat) + (natOfDigits q : Rat) / (10 ^ q.length : Rat))
    else none
  | _ => none

/-- Smallest `k ≤ 40` with `d ∣ 10 ^ k`: the decimal exponent needed to
print an exact-decimal rational. -/
def ratDecExp (d : Nat) : Nat :=
  ((List.range 41).filter (fun k => 10 ^ k % d == 0)).headD 0

/-- Decimal rendering of a nonnegative exact-decimal rational, the way
Python `str`/`repr` renders the corresponding float (`8.0`, `11.2`,
`0.06`); all floats interpolated into the source's f-strings are such
short decimals. -/
def fmtRatNN (q : Rat) : String :=
  let k := ratDecExp q.den
  if k = 0 then toString q.num ++ ".0"
  else
    let ds := (toString (q.num.toNat * 10 ^ k / q.den)).data
    let ds := List.replicate (k + 1 - ds.length) '0' ++ ds
    String.mk (ds.take (ds.length - k)) ++ "." ++ String.mk (ds.drop (ds.length - k))

/-- Python `str` of a float. -/
def fmtRat (q : Rat) : String :=
  if q < 0 then "-" ++ fmtRatNN (-q) else fmtRatNN q

/-- A Python number as stored in the `lab_ranges` dict: some bounds are
`int` literals and some `float` literals in the source, and the two
print differently when interpolated into report lines. -/
inductive PyNum where
  | int : Int → PyNum
  | float : Rat → PyNum
deriving DecidableEq

/-- Numeric value of a stored bound. -/
def PyNum.val : PyNum → Rat
  | .int n => (n : Rat)
  | .float q => q

/-- Python `str` of a stored bound (`36` for ints, `4.0` for floats). -/
def PyNum.str : PyNum → String
  | .int n => toString n
  | .float q => fmtRat q

/-- One row of the reference-range table (src/app.py lines 157-174). -/
structure ReferenceRange where
  low : PyNum
  high : PyNum
  unit : String
  critical_low : PyNum
  critical_high : PyNum
deriving DecidableEq

def wbcRange : ReferenceRange :=
  ⟨.float 4.0, .float 11.0, "10^3/μL", .float 2.0, .float 30.0⟩

/-- The static `lab_ranges` table returned by the knowledge-base method
of `MedicalAIAnalyzer` (src/app.py lines 156-175), in source order. -/
def lab_ranges : List (String × ReferenceRange) :=
  [ ("WBC", wbcRange),
    ("RBC", ⟨.float 4.2, .float 5.8, "10^6/μL", .float 2.5, .float 7.0⟩),
    ("Hemoglobin", ⟨.float 12.0, .float 16.0, "g/dL", .float 7.0, .float 20.0⟩),
    ("Hematocrit", ⟨.int 36, .int 48, "%", .int 20, .int 60⟩),
    ("Platelets", ⟨.int 150, .int 450, "10^3/μL", .int 50, .int 1000⟩),
    ("Glucose", ⟨.int 70, .int 100, "mg/dL", .int 50, .int 400⟩),
    ("Creatinine", ⟨.float 0.6, .float 1.3, "mg/dL", .float 0.2, .float 5.0⟩),
    ("BUN", ⟨.int 7, .int 20, "mg/dL", .int 5, .int 100⟩),
    ("ALT", ⟨.int 7, .int 55, "U/L", .int 5, .int 300⟩),
    ("AST", ⟨.int 8, .int 48, "U/L", .int 5, .int 300⟩),
    ("Total Cholesterol", ⟨.int 0, .int 200, "mg/dL", .int 0, .int 300⟩),
    ("LDL", ⟨.int 0, .int 100, "mg/dL", .int 0, .int 190⟩),
    ("HDL", ⟨.int 40, .int 100, "mg/dL", .int 20, .int 150⟩),
    ("Triglycerides", ⟨.int 0, .int 150, "mg/dL", .int 0, .int 500⟩),
    ("Iron", ⟨.int 60, .int 170, "μg/dL", .int 40, .int 200⟩),
    ("Ferritin", ⟨.int 15, .int 150, "ng/mL", .int 10, .int 500⟩),
    ("TIBC", ⟨.int 250, .int 400, "μg/dL", .int 200, .int 500⟩),
    ("Transferrin Saturation", ⟨.int 20, .int 50, "%", .int 15, .int 60⟩) ]

/-- Python `test in lab_ranges` / `lab_ranges[test]`. -/
def lookupRange (t : String) : Option ReferenceRange :=
  lab_ranges.lookup t

/-- The status a value receives in `_analyze_lab_results`
(src/app.py lines 474-481): LOW, HIGH, or Normal line. -/
inductive Status where
  | Low
  | Normal
  | High
deriving DecidableEq

/-- The classification decision inlined in `_analyze_lab_results`
(src/app.py lines 474-481): `value < low` gives LOW, else
`value > high` gives HIGH, else Normal. -/
def classify (r : ReferenceRange) (v : Rat) : Status :=
  if v < r.low.val then .Low
  else if v > r.high.val then .High
  else .Normal

/-- The spec's `classify_value(test_name, value)` interface: table lookup
followed by the inline classification above; `none` is NotFound. -/
def classify_value (t : String) (v : Rat) : Option Status :=
  (lookupRange t).map (fun r => classify r v)

/-- The `patterns` dict of `extract_lab_values` (src/app.py lines
655-674), decomposed: each regex value is an alternation of
`Name[\s:\-]*([\d.]+)` branches; the entry records the alternative name
literals in alternation order.  The number of alternatives equals the
number of capture groups of the original regex. -/
def patternsList : List (String × List String) :=
  [ ("WBC", ["WBC"]),
    ("RBC", ["RBC"]),
    ("Hemoglobin", ["Hemoglobin", "Hgb", "Hb"]),
    ("Hematocrit", ["Hematocrit", "Hct"]),
    ("Platelets", ["Platelets"]),
    ("Glucose", ["Glucose"]),
    ("Creatinine", ["Creatinine"]),
    ("BUN", ["BUN"]),
    ("ALT", ["ALT"]),
    ("AST", ["AST"]),
    ("Total Cholesterol", ["Total Cholesterol", "Cholesterol"]),
    ("LDL", ["LDL"]),
    ("HDL", ["HDL"]),
    ("Triglycerides", ["Triglycerides"]),
    ("Iron", ["Iron"]),
    ("Ferritin", ["Ferritin"]),
    ("TIBC", ["TIBC"]),
    ("Transferrin Saturation", ["Transferrin Saturation", "Sat"]) ]

/-- Membership in the regex class `[\s:\-]`. -/
def isSep (c : Char) : Bool := c.isWhitespace || c == ':' || c == '-'

/-- Membership in the regex class `[\d.]`. -/
def isNumChar (c : Char) : Bool := c.isDigit || c == '.'

/-- Match a literal name at the head of the text, returning the rest. -/
def matchName : List Char → List Char → Option (List Char)
  | [], rest => some rest
  | _ :: _, [] => none
  | n :: ns, c :: cs => if n == c then matchName ns cs else none

/-- Try one alternation branch `name[\s:\-]*([\d.]+)` at the current
position.  The two character classes are disjoint, so the greedy,
backtracking-free reading below is exactly the regex semantics: after
the literal, consume the maximal run of separators, then capture the
maximal nonempty run of digits/dots (failing the branch if empty).
Returns the captured group and the rest of the text after the match. -/
def tryAlt (name : List Char) (text : List Char) : Option (List Char × List Char) :=
  match matchName name text with
  | none => none
  | some rest =>
    let afterSep := rest.dropWhile isSep
    let cap := afterSep.takeWhile isNumChar
    if cap.isEmpty then none else some (cap, afterSep.drop cap.length)

/-- Try the alternation branches in order at the current position,
as the regex engine does; returns the branch index, its capture, and
the rest of the text. -/
def tryAltsAux : Nat → List (List Char) → List Char → Option (Nat × List Char × List Char)
  | _, [], _ => none
  | i, a :: as, text =>
    match tryAlt a text with
    | some (cap, rest) => some (i, cap, rest)
    | none => tryAltsAux (i + 1) as text

/-- `re.findall` scanning: leftmost, non-overlapping matches, resuming
after each match.  Every step consumes at least one character, so fuel
equal to the text length suffices. -/
def scanAux (alts : List (List Char)) : Nat → List Char → List (Nat × List Char)
  | 0, _ => []
  | _, [] => []
  | fuel + 1, c :: cs =>
    match tryAltsAux 0 alts (c :: cs) with
    | some (i, cap, rest) => (i, cap) :: scanAux alts fuel rest
    | none => scanAux alts fuel cs

/-- The group tuple `re.findall` returns for a match of branch `i` of an
`n`-branch alternation: the capture at position `i`, empty elsewhere. -/
def matchGroups (n i : Nat) (cap : List Char) : List (List Char) :=
  (List.range n).map (fun j => if j == i then cap else [])

/-- What the source's inner loop `for value in match` iterates over:
with several capture groups `re.findall` yields tuples and the loop
visits the group strings; with a single group it yields plain strings
and the loop visits their CHARACTERS one by one. -/
def innerCandidates (n : Nat) (groups : List (List Char)) : List (List Char) :=
  if n == 1 then (groups.headD []).map (fun c => [c]) else groups

/-- The source's inner loop body (src/app.py lines 681-687): the first
candidate that is truthy and parses as a float is assigned; a truthy
candidate that raises `ValueError` is skipped and the loop continues. -/
def firstParse : List (List Char) → Option Rat
  | [] => none
  | v :: rest =>
    if pyTruthy v then
      match pyFloat v with
      | some x => some x
      | none => firstParse rest
    else firstParse rest

/-- The value `extract_lab_values` ends up storing for one test: the
matches are folded in text order and every match whose inner loop
succeeds overwrites the dict entry, so the last successful match wins. -/
def extractTest (alts : List String) (tl : List Char) : Option Rat :=
  let altsL := alts.map lowerData
  (scanAux altsL tl.length tl).foldl
    (fun acc m =>
      match firstParse (innerCandidates alts.length (matchGroups alts.length m.1 m.2)) with
      | some v => some v
      | none => acc)
    none

/-- The whole `extracted_values` dict, as an insertion-ordered list:
each test is processed once, in `patterns` order. -/
def extractAll (pats : List (String × List String)) (tl : List Char) :
    List (String × Rat) :=
  pats.filterMap (fun p => (extractTest p.2 tl).map (fun v => (p.1, v)))

/-- `MedicalAIAnalyzer.extract_lab_values` (src/app.py lines 653-688). -/
def extract_lab_values (text : String) : List (String × Rat) :=
  extractAll patternsList (lowerData text)

/-- The empty-input message of `_analyze_lab_results` (src/app.py line 461). -/
def msgNoData : String :=
  "I don\x27t see any lab results to analyze. Please upload your lab reports or paste your test results in the sidebar for detailed analysis."

/-- The no-values-extracted message of `_analyze_lab_results`
(src/app.py line 466), asking the user to reformat as `Test: value`. -/
def noValuesMessage : String :=
  "I found some medical data but couldn\x27t extract specific lab values. Could you please paste your results in this format:\n\nHemoglobin: 12.5 g/dL\nFerritin: 25 ng/mL\nWBC: 6.8\n\nThis will help me provide more accurate analysis."

def labHeader : String := "🔬 **Laboratory Results Analysis**\n\n"

/-- Report line for a LOW value (src/app.py line 475). -/
def lowLine (t : String) (v : Rat) (r : ReferenceRange) : String :=
  "⚠️ **" ++ t ++ "**: " ++ fmtRat v ++ " " ++ r.unit ++ " **(LOW)** - Normal: "
    ++ r.low.str ++ "-" ++ r.high.str ++ " " ++ r.unit ++ "\n"

/-- Report line for a HIGH value (src/app.py line 478). -/
def highLine (t : String) (v : Rat) (r : ReferenceRange) : String :=
  "⚠️ **" ++ t ++ "**: " ++ fmtRat v ++ " " ++ r.unit ++ " **(HIGH)** - Normal: "
    ++ r.low.str ++ "-" ++ r.high.str ++ " " ++ r.unit ++ "\n"

/-- Report line for a Normal value (src/app.py line 481). -/
def normalLine (t : String) (v : Rat) (r : ReferenceRange) : String :=
  "✅ **" ++ t ++ "**: " ++ fmtRat v ++ " " ++ r.unit ++ " (Normal)\n"

/-- The per-test loop of `_analyze_lab_results` (src/app.py lines
471-481): append one line per extracted test that is present in the
range table, counting the abnormal ones. -/
def composeLines : List (String × Rat) → String → Nat → String × Nat
  | [], acc, n => (acc, n)
  | (t, v) :: rest, acc, n =>
    match lookupRange t with
    | none => composeLines rest acc n
    | some r =>
      if v < r.low.val then composeLines rest (acc ++ lowLine t v r) (n + 1)
      else if v > r.high.val then composeLines rest (acc ++ highLine t v r) (n + 1)
      else composeLines rest (acc ++ normalLine t v r) n

/-- Narrative for a report with abnormal findings (src/app.py line 484). -/
def foundMsg (n : Nat) : String :=
  "\n**Found " ++ toString n ++ " abnormal values** that should be discussed with your healthcare provider.\n"

/-- Narrative for an all-normal report (src/app.py line 486). -/
def allNormalMsg : String :=
  "\n**All analyzed values are within normal ranges.**\n"

/-- The fixed recommendations tail (src/app.py line 488). -/
def recsMsg : String :=
  "\n**Recommendations:**\n• Discuss these results with your doctor\n• Consider follow-up testing if symptoms persist\n• Maintain records for future reference"

/-- Narrative plus recommendations appended to the composed lines
(src/app.py lines 483-488). -/
def labReportBody (p : String × Nat) : String :=
  (if 0 < p.2 then p.1 ++ foundMsg p.2 else p.1 ++ allNormalMsg) ++ recsMsg

/-- `MedicalAIAnalyzer._analyze_lab_results` (src/app.py lines 458-490). -/
def analyze_lab_results (processed_data : String) : String :=
  if processed_data = "" then msgNoData
  else if extract_lab_values processed_data = [] then noValuesMessage
  else labReportBody (composeLines (extract_lab_values processed_data) labHeader 0)

/-- The iron-deficiency-aware greeting (src/app.py lines 315-325). -/
def greetingIron : String :=
  "👋 Hello! I can see you\x27ve mentioned iron deficiency in your medical information. \n\nI understand this can be concerning. Let me help you understand what this means and what steps you can take.\n\nBased on iron deficiency, here\x27s what I can help with:\n• Understanding your lab results and what they mean\n• Dietary recommendations to improve iron levels\n• Symptoms management and when to seek urgent care\n• Questions to ask your doctor\n\nWhat specific aspect would you like to discuss first?"

/-- The generic greeting (src/app.py lines 327-335). -/
def greetingGeneric : String :=
  "👋 Hello! I\x27m Dr. MedAI, your medical assistant.\n\nI\x27m here to help you understand:\n• Your medical test results and what they mean\n• Symptoms and potential causes\n• Medication questions and interactions\n• Health and wellness guidance\n\nPlease share your medical concerns, test results, or upload your medical reports, and I\x27ll provide detailed, personalized analysis."

/-- The default help reply (src/app.py lines 350-357). -/
def fallbackDefault : String :=
  "I\x27d be happy to help with your health questions! To provide the most accurate and helpful information, please:\n\n1. **Share your specific symptoms or concerns**\n2. **Upload your medical reports or test results**\n3. **Tell me about any diagnoses you\x27ve received**\n4. **Describe your current medications or treatments**\n\nThe more information you provide, the better I can assist you with personalized guidance and explanations."

/-- The fixed symptom-analysis template returned by `_analyze_symptoms`
(src/app.py lines 422-456); its three arguments are unused. -/
def symptomsTemplate : String :=
  "🤒 **Symptom Analysis**\n\nI understand you\x27re experiencing symptoms. Let me help you understand what they might indicate:\n\n**Common Symptom Patterns:**\n\n**Fatigue + Weakness:**\n• Iron deficiency anemia (most common)\n• Thyroid disorders\n• Sleep apnea or poor sleep quality\n• Chronic fatigue syndrome\n• Nutritional deficiencies\n\n**Dizziness + Pale Skin:**\n• Anemia (reduced oxygen delivery)\n• Dehydration\n• Blood pressure issues\n• Inner ear problems\n\n**Next Steps:**\n1. **Track your symptoms** - note timing, triggers, severity\n2. **Get comprehensive blood work** - CBC, iron studies, thyroid panel\n3. **Discuss with your doctor** - bring your symptom diary\n4. **Consider lifestyle factors** - sleep, stress, diet, exercise\n\n**Red Flags Requiring Urgent Attention:**\n• Chest pain or pressure\n• Difficulty breathing\n• Fainting or near-fainting\n• Severe, persistent headache\n• Rapid heart rate\n\nWould you like to discuss specific symptoms in more detail or upload your test results for personalized analysis?"

/-- Opening text of `_provide_iron_deficiency_analysis`
(src/app.py lines 361-377). -/
def ironIntro : String :=
  "🔬 **Comprehensive Iron Deficiency Analysis**\n\n**Understanding Your Condition:**\nIron deficiency is one of the most common nutritional deficiencies worldwide. It occurs when your body doesn\x27t have enough iron to produce adequate hemoglobin, the protein in red blood cells that carries oxygen.\n\n**Common Symptoms:**\n• Fatigue and weakness\n• Pale skin and conjunctiva\n• Shortness of breath\n• Dizziness or lightheadedness\n• Headaches\n• Cold hands and feet\n• Brittle nails\n• Unusual cravings for non-nutritive substances (pica)\n\n**Key Laboratory Findings:**\n"

/-- Closing text of `_provide_iron_deficiency_analysis`
(src/app.py lines 402-418). -/
def ironTail : String :=
  "\n**Recommended Actions:**\n\n1. **Medical Consultation:** Schedule appointment with hematologist or primary care physician\n2. **Iron Supplementation:** Typically 65-200 mg elemental iron daily\n3. **Dietary Changes:** Increase iron-rich foods (red meat, spinach, lentils)\n4. **Vitamin C:** Take with iron supplements to enhance absorption\n5. **Follow-up Testing:** Repeat blood tests in 2-3 months\n6. **Identify Cause:** Investigate potential blood loss or absorption issues\n\n**When to Seek Immediate Care:**\n• Severe fatigue preventing daily activities\n• Chest pain or palpitations\n• Shortness of breath at rest\n• Significant dizziness or fainting\n\nWould you like me to analyze specific lab values or discuss dietary recommendations in more detail?"

/-- The Hemoglobin and Ferritin inspection of
`_provide_iron_deficiency_analysis` (src/app.py lines 382-397): the
first component collects the normal-range lines appended to the running
analysis, the second the `critical_findings` list. -/
def ironFindings (lab_values : List (String × Rat)) : String × List String :=
  let hb : String × List String :=
    match lab_values.lookup "Hemoglobin" with
    | none => ("", [])
    | some v =>
      if v < 12 then ("", ["Hemoglobin: " ++ fmtRat v ++ " g/dL (LOW - indicates anemia)"])
      else ("• Hemoglobin: " ++ fmtRat v ++ " g/dL (Normal range: 12.0-16.0 g/dL)\n", [])
  let fe : String × List String :=
    match lab_values.lookup "Ferritin" with
    | none => ("", [])
    | some v =>
      if v < 15 then ("", ["Ferritin: " ++ fmtRat v ++ " ng/mL (VERY LOW - confirms iron deficiency)"])
      else if v < 30 then ("", ["Ferritin: " ++ fmtRat v ++ " ng/mL (LOW - indicates iron deficiency)"])
      else ("• Ferritin: " ++ fmtRat v ++ " ng/mL (Normal range: 15-150 ng/mL)\n", [])
  (hb.1 ++ fe.1, hb.2 ++ fe.2)

/-- The `critical_findings` section (src/app.py lines 399-400); empty
when no critical findings were collected. -/
def criticalSection (findings : List String) : String :=
  if findings.isEmpty then ""
  else "\n🚨 **CRITICAL FINDINGS:**\n"
    ++ String.intercalate "\n" (findings.map (fun f => "• " ++ f)) ++ "\n"

/-- `MedicalAIAnalyzer._provide_iron_deficiency_analysis`
(src/app.py lines 359-420); `patient_context` is unused in the source
too. -/
def provide_iron_deficiency_analysis (_patient_context processed_data : String) : String :=
  ironIntro ++ (ironFindings (extract_lab_values processed_data)).1
    ++ criticalSection (ironFindings (extract_lab_values processed_data)).2
    ++ ironTail

/-- Iron-deficiency diet template (src/app.py lines 495-524). -/
def nutritionIron : String :=
  "🍎 **Nutrition for Iron Deficiency**\n\n**Iron-Rich Foods to Include:**\n\n**Heme Iron (better absorption):**\n• Red meat (beef, lamb) - 3oz provides 2-3mg iron\n• Poultry (chicken, turkey)\n• Fish and seafood (especially oysters, clams)\n• Organ meats (liver) - very high in iron\n\n**Non-Heme Iron:**\n• Spinach and leafy greens (cooked)\n• Lentils and beans\n• Fortified cereals and grains\n• Tofu and soy products\n• Pumpkin seeds\n\n**Enhance Iron Absorption:**\n• **Vitamin C**: Citrus fruits, bell peppers, broccoli, strawberries\n• **Avoid with meals**: Tea, coffee, calcium supplements (wait 1-2 hours)\n• **Cook in cast iron**: Can increase iron content of food\n\n**Sample Iron-Rich Day:**\n• Breakfast: Fortified cereal with strawberries\n• Lunch: Spinach salad with lean beef and bell peppers\n• Dinner: Lentil soup with orange slices\n• Snack: Pumpkin seeds\n\n**Daily Iron Goals:**\n• Men: 8mg • Women (19-50): 18mg • Women (51+): 8mg"

/-- General diet template (src/app.py lines 526-539). -/
def nutritionGeneral : String :=
  "🍎 **General Nutrition for Good Health**\n\n**Balanced Diet Principles:**\n• Fill half your plate with vegetables and fruits\n• Include lean protein with each meal\n• Choose whole grains over refined grains\n• Stay hydrated with water\n• Limit processed foods and added sugars\n\n**Key Nutrients for Energy:**\n• Iron: Meat, spinach, lentils\n• B12: Animal products, fortified foods\n• Vitamin D: Sunlight, fatty fish, fortified dairy\n• Magnesium: Nuts, seeds, leafy greens"

/-- `MedicalAIAnalyzer._provide_nutrition_advice`
(src/app.py lines 492-539). -/
def provide_nutrition_advice (patient_context processed_data : String) : String :=
  if containsSub "iron".data (lowerData patient_context)
      || containsSub "iron".data (lowerData processed_data) then nutritionIron
  else nutritionGeneral

/-- `any(kw in message_lower for kw in kws)`. -/
def anyContains (ml : List Char) (kws : List String) : Bool :=
  kws.any (fun k => containsSub k.data ml)

/-- `MedicalAIAnalyzer._intelligent_fallback_response`
(src/app.py lines 305-357): first-match-wins keyword routing over the
lowercased message.  `message_lower` and the iron-context flag of the
source are inlined at their (single) use sites. -/
def intelligent_fallback_response (message patient_context processed_data : String) : String :=
  if anyContains (lowerData message) ["hi", "hello", "hey"] then
    if containsSub "iron".data (lowerData patient_context)
        || containsSub "iron".data (lowerData processed_data) then greetingIron
    else greetingGeneric
  else if anyContains (lowerData message) ["iron", "deficiency", "anemia", "ferritin", "hemoglobin"] then
    provide_iron_deficiency_analysis patient_context processed_data
  else if anyContains (lowerData message) ["symptom", "tired", "fatigue", "weak", "dizzy", "pale"] then
    symptomsTemplate
  else if anyContains (lowerData message) ["lab", "test", "result", "report"] then
    analyze_lab_results processed_data
  else if anyContains (lowerData message) ["diet", "food", "nutrition", "eat"] then
    provide_nutrition_advice patient_context processed_data
  else fallbackDefault

theorem str_append_pos (a b : String) (h : 0 < a.length) : 0 < (a ++ b).length := by
  rw [String.length_append]
  omega

theorem composeLines_len (l : List (String × Rat)) :
    ∀ (acc : String) (n : Nat), acc.length ≤ (composeLines l acc n).1.length := by
  induction l with
  | nil => intro acc n; exact Nat.le_refl _
  | cons p rest ih =>
    intro acc n
    obtain ⟨t, v⟩ := p
    simp only [composeLines]
    split
    · exact ih acc n
    · split
      · exact Nat.le_trans (by rw [String.length_append]; omega) (ih _ _)
      · split
        · exact Nat.le_trans (by rw [String.length_append]; omega) (ih _ _)
        · exact Nat.le_trans (by rw [String.length_append]; omega) (ih _ _)

theorem labReportBody_pos (p : String × Nat) (h : 0 < p.1.length) :
    0 < (labReportBody p).length := by
  unfold labReportBody
  by_cases h2 : 0 < p.2
  · rw [if_pos h2, String.length_append, String.length_append]; omega
  · rw [if_neg h2, String.length_append, String.length_append]; omega

theorem analyze_lab_results_pos (pd : String) : 0 < (analyze_lab_results pd).length := by
  unfold analyze_lab_results
  by_cases h0 : pd = ""
  · rw [if_pos h0]; decide!
  · rw [if_neg h0]
    by_cases h1 : extract_lab_values pd = []
    · rw [if_pos h1]; decide!
    · rw [if_neg h1]
      refine labReportBody_pos _ ?_
      calc 0 < labHeader.length := by decide!
        _ ≤ _ := composeLines_len _ _ _

theorem iron_analysis_pos (pc pd : String) :
    0 < (provide_iron_deficiency_analysis pc pd).length := by
  unfold provide_iron_deficiency_analysis
  rw [String.length_append, String.length_append, String.length_append]
  have h : 0 < ironIntro.length := by decide!
  omega

theorem nutrition_pos (pc pd : String) : 0 < (provide_nutrition_advice pc pd).length := by
  unfold provide_nutrition_advice
  by_cases h : (containsSub "iron".data (lowerData pc)
      || containsSub "iron".data (lowerData pd)) = true
  · rw [if_pos h]; decide!
  · rw [if_neg h]; decide!

theorem fallback_response_pos (m pc pd : String) :
    0 < (intelligent_fallback_response m pc pd).length := by
  unfold intelligent_fallback_response
  split
  · split
    · decide!
    · decide!
  · split
    · exact iron_analysis_pos pc pd
    · split
      · decide!
      · split
        · exact analyze_lab_results_pos pd
        · split
          · exact nutrition_pos pc pd
          · decide!

theorem extractAll_keys_sublist (pats : List (String × List String)) (tl : List Char) :
    ((extractAll pats tl).map Prod.fst).Sublist (pats.map Prod.fst) := by
  induction pats with
  | nil => simp [extractAll]
  | cons a as ih =>
    cases h : extractTest a.2 tl with
    | none =>
      have he : extractAll (a :: as) tl = extractAll as tl := by
        simp [extractAll, List.filterMap_cons, h]
      rw [he, List.map_cons]
      exact ih.cons _
    | some v =>
      have he : extractAll (a :: as) tl = (a.1, v) :: extractAll as tl := by
        simp [extractAll, List.filterMap_cons, h]
      rw [he, List.map_cons, List.map_cons]
      exact ih.cons₂ _

theorem extract_keys_nodup (text : String) :
    ((extract_lab_values text).map Prod.fst).Nodup :=
  List.Nodup.sublist (extractAll_keys_sublist patternsList (lowerData text)) (by decide!)

/-- C1: evaluation of `extract_lab_values` at the spec's concrete
scenario-1 input.  The claim expects the map
`{Hemoglobin ↦ 11.2, Ferritin ↦ 12.0, WBC ↦ 6.8}`; the code instead
returns `WBC ↦ 6.0` and `Ferritin ↦ 1.0`, because for single-capture-group
patterns `re.findall` yields plain strings and the inner loop
`for value in match` iterates over their characters, so `float` of the
first digit is stored.  `Hemoglobin ↦ 11.2` is produced correctly via the
three-group alternation, whose findall results are genuine tuples. -/
theorem extract_scenario1_eval :
    extract_lab_values "Hemoglobin: 11.2 g/dL\nFerritin: 12 ng/mL\nWBC: 6.8"
      = [("WBC", 6), ("Hemoglobin", 11.2), ("Ferritin", 1)]
    ∧ (extract_lab_values "Hemoglobin: 11.2 g/dL\nFerritin: 12 ng/mL\nWBC: 6.8").lookup "WBC"
      ≠ some 6.8
    ∧ (extract_lab_values "Hemoglobin: 11.2 g/dL\nFerritin: 12 ng/mL\nWBC: 6.8").lookup "Ferritin"
      ≠ some 12 := by
  decide!

/-- C2 (counterexample): the claim says the earliest occurrence in the
text wins for each test; on the input below the first Hemoglobin
occurrence carries 10 but the extractor returns 13, the value of the
last occurrence, because each successful match overwrites the dict
entry. -/
theorem extract_first_occurrence_counterexample :
    extract_lab_values "Hemoglobin: 10 Hemoglobin: 13" = [("Hemoglobin", 13)]
    ∧ extract_lab_values "Hemoglobin: 10 Hemoglobin: 13" ≠ [("Hemoglobin", 10)] := by
  decide!

/-- C2 (amended): exactly one value per test name is retained (the key
list of every extraction result is duplicate-free), but the retained
value comes from the LAST successful parse over the findall matches
(later occurrences overwrite earlier ones), not the first; moreover for
tests whose pattern has a single capture group the stored value is the
float of the first parseable character of the matched number ("WBC: 47"
stores 4.0). -/
theorem extract_one_value_per_test_last_wins :
    (∀ text : String, ((extract_lab_values text).map Prod.fst).Nodup)
    ∧ extract_lab_values "Hemoglobin: 10 Hemoglobin: 13" = [("Hemoglobin", 13)]
    ∧ extract_lab_values "WBC: 47" = [("WBC", 4)] :=
  ⟨extract_keys_nodup, by decide!, by decide!⟩

/-- C3 (counterexample): the claim says WBC = 35 classifies as
CriticalHigh, a status distinct from the merely-High status of WBC = 12;
in the code both values receive exactly the same status, because the
classification in `_analyze_lab_results` never consults the critical
bounds. -/
theorem classify_critical_counterexample :
    classify_value "WBC" 35 = classify_value "WBC" 12 := by
  decide!

/-- C3 (amended): classification uses only the normal bounds, in the
order `value < low` → Low, `value > high` → High, else Normal; the
critical bounds are carried in the table (WBC critical_high is 30.0) but
are never consulted, so they can be replaced arbitrarily without
changing any classification, and WBC values 35 and 12 both classify
High. -/
theorem classify_ignores_critical_bounds :
    (∀ (r : ReferenceRange) (v : Rat) (cl ch : PyNum),
        classify { r with critical_low := cl, critical_high := ch } v = classify r v)
    ∧ classify_value "WBC" 35 = some Status.High
    ∧ classify_value "WBC" 12 = some Status.High
    ∧ (lookupRange "WBC").map (fun r => r.critical_high.val) = some 30 :=
  ⟨fun _ _ _ _ => rfl, by decide!, by decide!, by decide!⟩

/-- C4: on every non-empty input from which no lab value is extracted,
`_analyze_lab_results` returns the fixed non-empty message asking the
user to paste results in `Test: value` format, rather than an empty
report or an exception. -/
theorem no_values_reformat_message (s : String) (h1 : s ≠ "")
    (h2 : extract_lab_values s = []) :
    analyze_lab_results s = noValuesMessage ∧ noValuesMessage ≠ "" := by
  constructor
  · simp [analyze_lab_results, h1, h2]
  · decide!

/-- C4 (witness): the spec's concrete scenario-3 input. -/
theorem no_values_reformat_message_witness :
    analyze_lab_results "patient feels fine today" = noValuesMessage
    ∧ noValuesMessage ≠ "" :=
  no_values_reformat_message "patient feels fine today" (by decide!) (by decide!)

/-- C5: evaluation of the composed report at the spec's concrete
scenario-2 input `"WBC: 8.2, Glucose: 95"`.  The claim expects both
values Normal and the all-normal narrative; the code extracts
`WBC ↦ 8.0` and `Glucose ↦ 9.0` (the first digit of each matched
number), classifies Glucose as Low, and the report carries the
"Found 1 abnormal values" narrative instead of the all-normal one. -/
theorem scenario2_report_eval :
    extract_lab_values "WBC: 8.2, Glucose: 95" = [("WBC", 8), ("Glucose", 9)]
    ∧ classify_value "Glucose" 9 = some Status.Low
    ∧ containsSub "Found 1 abnormal values".data
        (analyze_lab_results "WBC: 8.2, Glucose: 95").data = true
    ∧ containsSub "All analyzed values are within normal ranges".data
        (analyze_lab_results "WBC: 8.2, Glucose: 95").data = false := by
  decide!

/-- C6: totality and robustness of the fallback core.  The embedding is
total by construction (the `ValueError` of `float` is the `none` branch
of `pyFloat`, caught and skipped exactly as the source's
`try/except ValueError: continue`); in addition, extraction of the
empty string yields the empty map, a match whose captured token parses
as no float (`"Hemoglobin: .."`) is skipped while extraction continues
with the remaining tests, and the fallback chat responder returns a
non-empty string on every input triple. -/
theorem extraction_total_and_robust :
    extract_lab_values "" = []
    ∧ extract_lab_values "Hemoglobin: ..\nWBC: 5" = [("WBC", 5)]
    ∧ ∀ m pc pd : String, 0 < (intelligent_fallback_response m pc pd).length :=
  ⟨by decide!, by decide!, fallback_response_pos⟩

/-- C7: for every entry of the reference-range table, classifying the
value equal to the entry's low bound and the value equal to its high
bound both yield Normal — the normal interval is closed at both ends. -/
theorem boundary_values_classify_normal :
    ∀ p ∈ lab_ranges,
      classify_value p.1 p.2.low.val = some Status.Normal
      ∧ classify_value p.1 p.2.high.val = some Status.Normal := by
  decide!

/-- C7 (witness): the WBC row. -/
theorem boundary_values_classify_normal_witness :
    classify_value "WBC" wbcRange.low.val = some Status.Normal
    ∧ classify_value "WBC" wbcRange.high.val = some Status.Normal :=
  boundary_values_classify_normal ("WBC", wbcRange) (by decide!)

/-- C8: greeting routing outranks every other rule — any message whose
lowercase form contains a greeting token is answered by a greeting
template regardless of what else it contains — and the iron-aware
greeting is returned exactly when the patient context or the processed
data contains "iron" (case-insensitively); in particular
`respond("hello", "", "")` is the generic greeting and
`respond("hello", "History: iron deficiency", "")` the iron-aware
one. -/
theorem greeting_routing_priority :
    (∀ m pc pd : String,
      anyContains (lowerData m) ["hi", "hello", "hey"] = true →
      intelligent_fallback_response m pc pd =
        if containsSub "iron".data (lowerData pc) || containsSub "iron".data (lowerData pd)
        then greetingIron else greetingGeneric)
    ∧ intelligent_fallback_response "hello" "" "" = greetingGeneric
    ∧ intelligent_fallback_response "hello" "History: iron deficiency" "" = greetingIron := by
  refine ⟨?_, by decide!, by decide!⟩
  intro m pc pd h
  simp [intelligent_fallback_response, h]

/-- C8 (witness): a message containing both a greeting word and lab
keywords routes to the (generic) greeting. -/
theorem greeting_routing_priority_witness :
    intelligent_fallback_response "hi, please explain my lab test results" "" ""
      = greetingGeneric := by
  have h := greeting_routing_priority.1 "hi, please explain my lab test results" "" ""
    (by decide!)
  rw [h]
  decide!

/-- C9: the reference-range table realises the spec's minimum canonical
set with the stated normal bounds, and every row satisfies
`low ≤ high`, `critical_low ≤ low` and `high ≤ critical_high`. -/
theorem reference_table_contents_and_invariants :
    (∀ p ∈ lab_ranges,
        p.2.low.val ≤ p.2.high.val
        ∧ p.2.critical_low.val ≤ p.2.low.val
        ∧ p.2.high.val ≤ p.2.critical_high.val)
    ∧ (lookupRange "WBC").map (fun r => (r.low.val, r.high.val)) = some (4, 11)
    ∧ (lookupRange "RBC").map (fun r => (r.low.val, r.high.val)) = some (4.2, 5.8)
    ∧ (lookupRange "Hemoglobin").map (fun r => (r.low.val, r.high.val)) = some (12, 16)
    ∧ (lookupRange "Hematocrit").map (fun r => (r.low.val, r.high.val)) = some (36, 48)
    ∧ (lookupRange "Platelets").map (fun r => (r.low.val, r.high.val)) = some (150, 450)
    ∧ (lookupRange "Glucose").map (fun r => (r.low.val, r.high.val)) = some (70, 100)
    ∧ (lookupRange "Creatinine").map (fun r => (r.low.val, r.high.val)) = some (0.6, 1.3)
    ∧ (lookupRange "BUN").map (fun r => (r.low.val, r.high.val)) = some (7, 20)
    ∧ (lookupRange "ALT").map (fun r => (r.low.val, r.high.val)) = some (7, 55)
    ∧ (lookupRange "AST").map (fun r => (r.low.val, r.high.val)) = some (8, 48)
    ∧ (lookupRange "Total Cholesterol").map (fun r => (r.low.val, r.high.val)) = some (0, 200)
    ∧ (lookupRange "LDL").map (fun r => (r.low.val, r.high.val)) = some (0, 100)
    ∧ (lookupRange "HDL").map (fun r => (r.low.val, r.high.val)) = some (40, 100)
    ∧ (lookupRange "Triglycerides").map (fun r => (r.low.val, r.high.val)) = some (0, 150)
    ∧ (lookupRange "Iron").map (fun r => (r.low.val, r.high.val)) = some (60, 170)
    ∧ (lookupRange "Ferritin").map (fun r => (r.low.val, r.high.val)) = some (15, 150)
    ∧ (lookupRange "TIBC").map (fun r => (r.low.val, r.high.val)) = some (250, 400)
    ∧ (lookupRange "Transferrin Saturation").map (fun r => (r.low.val, r.high.val))
      = some (20, 50) := by
  decide!

/-- C9 (witness): the WBC row satisfies the ordering invariants. -/
theorem reference_table_invariants_witness :
    wbcRange.low.val ≤ wbcRange.high.val
    ∧ wbcRange.critical_low.val ≤ wbcRange.low.val
    ∧ wbcRange.high.val ≤ wbcRange.critical_high.val :=
  reference_table_contents_and_invariants.1 ("WBC", wbcRange) (by decide!)

/-- C10: greeting detection is a bare substring test, so the message
"explain this lab report" — whose word "this" contains "hi" — routes to
the greeting branch and receives the generic greeting template instead
of the lab-result analysis. -/
theorem greeting_substring_over_matching :
    intelligent_fallback_response "explain this lab report" "" "" = greetingGeneric
    ∧ containsSub "hi".data (lowerData "explain this lab report") = true
    ∧ containsSub "lab".data (lowerData "explain this lab report") = true
    ∧ greetingGeneric ≠ analyze_lab_results "" := by
  decide!
